import Mathlib

/-
Verification of the order-fulfillment saga of the orders service
(services/orders/app): pure validators (validators.py), the inventory
client (clients/inventory_client.py), the saga helpers (crud.py) and the
create/update endpoints (main.py), shallowly embedded as executable Lean
functions.  Python ints are modelled as Int, Decimal values as Rat
(Decimal arithmetic on these programs is exact), and the remote services
as an explicit `World` state threaded through every call.  Transport
failures (httpx errors) and non-200 write responses are injected through
a per-remote-call fault schedule carried by the world, consumed in call
order.
-/

set_option autoImplicit false

namespace OrdersSaga

/-- One order line item (schemas.OrderItem): SKU, integer quantity,
decimal unit price. -/
structure Item where
  sku : String
  quantity : Int
  price : Rat
deriving DecidableEq

/-! ## validators.py -/

/-- Per-item loop of validators.validate_order_items: the four checks are
applied to each item in list order, first violation wins. -/
def checkItemsLoop : List Item → Bool × String
  | [] => (true, "")
  | i :: rest =>
    if i.quantity ≤ 0 then
      (false, "Item " ++ i.sku ++ ": quantity must be positive")
    else if i.quantity > 10000 then
      (false, "Item " ++ i.sku ++ ": quantity exceeds maximum (10000)")
    else if i.price < 0 then
      (false, "Item " ++ i.sku ++ ": price cannot be negative")
    else if i.price > 1000000 then
      (false, "Item " ++ i.sku ++ ": price exceeds maximum (1,000,000)")
    else checkItemsLoop rest

/-- validators.validate_order_items.  The python duplicate test
`len(skus) != len(set(skus))` holds exactly when the sku list is not
Nodup. -/
def validate_order_items (items : List Item) : Bool × String :=
  if items = [] then (false, "Order must contain at least one item")
  else if items.length > 100 then (false, "Order cannot contain more than 100 items")
  else if ¬ (items.map Item.sku).Nodup then (false, "Order contains duplicate SKUs")
  else checkItemsLoop items

/-- validators.validate_order_total: recompute the total and compare with
tolerance Decimal('0.01'). -/
def validate_order_total (items : List Item) (claimed_total : Rat) : Bool × String :=
  let calculated_total : Rat := (items.map (fun i => i.price * (i.quantity : Rat))).sum
  if abs (calculated_total - claimed_total) > (1 : Rat) / 100 then
    (false, "Order total mismatch: calculated $" ++ toString calculated_total
      ++ ", claimed $" ++ toString claimed_total)
  else (true, "")

/-- The `valid_transitions` dict of validators.validate_order_status_transition:
`none` models a status that is not a key of the dict. -/
def valid_transitions (s : String) : Option (List String) :=
  if s = "pending" then some ["processing", "cancelled"]
  else if s = "processing" then some ["shipped", "cancelled"]
  else if s = "shipped" then some ["delivered", "cancelled"]
  else if s = "delivered" then some []
  else if s = "cancelled" then some ["pending"]
  else none

/-- validators.validate_order_status_transition, with the checks in source
order: unknown old status, unknown new status, no-op transition, edge
membership. -/
def validate_order_status_transition (old_status new_status : String) : Bool × String :=
  match valid_transitions old_status with
  | none => (false, "Unknown status: " ++ old_status)
  | some allowed =>
    match valid_transitions new_status with
    | none => (false, "Unknown status: " ++ new_status)
    | some _ =>
      if old_status = new_status then (true, "")
      else if new_status ∈ allowed then (true, "")
      else (false, "Invalid status transition: " ++ old_status ++ " -> " ++ new_status)

/-- The five statuses of the state machine. -/
def statusList : List String := ["pending", "processing", "shipped", "delivered", "cancelled"]

/-- The six legal proper edges plus the reactivation edge, as ordered pairs. -/
def legalEdges : List (String × String) :=
  [("pending", "processing"), ("pending", "cancelled"),
   ("processing", "shipped"), ("processing", "cancelled"),
   ("shipped", "delivered"), ("shipped", "cancelled"),
   ("cancelled", "pending")]

/-! ## The remote world: inventory stock, users, fault injection, call logs

The inventory service is a remote mutable table keyed by SKU (the numeric
row id used by the PUT endpoint is in one-to-one correspondence with the
SKU and is not modelled separately).  Each client-level remote operation
(user check, item listing, stock check, reduce, restore) consumes one
fault token from the schedule: `transport` stands for an httpx error
raised anywhere inside that operation, `putReject` for a non-200 response
to the PUT write of reduce/restore. -/

/-- Outcome injected for one remote client call. -/
inductive Fault where
  | ok
  | transport (s : String)
  | putReject (s : String)
deriving DecidableEq

/-- State of everything outside the orders service process, plus logs of
the reduce (reserve) and restore (release) calls issued so far. -/
structure World where
  stock : List (String × Int)
  users : List Int
  faults : List Fault
  reduceLog : List (String × Int)
  restoreLog : List (String × Int)
deriving DecidableEq

/-- Consume the next fault token (no token means the call succeeds). -/
def popFault (w : World) : Fault × World :=
  match w.faults with
  | [] => (Fault.ok, w)
  | f :: rest => (f, { w with faults := rest })

/-- Quantity on hand for a SKU, `none` when the SKU has no inventory row. -/
def lookupStock (stock : List (String × Int)) (sku : String) : Option Int :=
  (stock.find? (fun p => p.1 == sku)).map (fun p => p.2)

/-- Write a new quantity for a SKU (the PUT to the row's id). -/
def setStock (stock : List (String × Int)) (sku : String) (qty : Int) : List (String × Int) :=
  stock.map (fun p => if p.1 == sku then (p.1, qty) else p)

/-! ## clients/inventory_client.py -/

/-- inventory_client.reduce_inventory: read the row, reject locally when
the decrement would go negative, then PUT the new quantity.  A transport
fault anywhere is caught and returned as an "Inventory service error";
a non-200 PUT response is returned as "Failed to update inventory". -/
def reduce_inventory (w : World) (sku : String) (quantity : Int) :
    (Bool × Option String) × World :=
  let f := (popFault w).1
  let w1 := (popFault w).2
  let w2 := { w1 with reduceLog := w1.reduceLog ++ [(sku, quantity)] }
  match f with
  | Fault.transport s => ((false, some ("Inventory service error: " ++ s)), w2)
  | f =>
    match lookupStock w2.stock sku with
    | none => ((false, some ("SKU '" ++ sku ++ "' not found")), w2)
    | some current_qty =>
      if current_qty - quantity < 0 then
        ((false, some ("Insufficient inventory for SKU '" ++ sku ++ "'. Available: "
          ++ toString current_qty ++ ", Requested: " ++ toString quantity)), w2)
      else
        match f with
        | Fault.putReject s => ((false, some ("Failed to update inventory: " ++ s)), w2)
        | _ => ((true, none), { w2 with stock := setStock w2.stock sku (current_qty - quantity) })

/-- inventory_client.restore_inventory: read the row, then PUT the
increased quantity (not bounded by any original stock level). -/
def restore_inventory (w : World) (sku : String) (quantity : Int) :
    (Bool × Option String) × World :=
  let f := (popFault w).1
  let w1 := (popFault w).2
  let w2 := { w1 with restoreLog := w1.restoreLog ++ [(sku, quantity)] }
  match f with
  | Fault.transport s => ((false, some ("Inventory service error: " ++ s)), w2)
  | f =>
    match lookupStock w2.stock sku with
    | none => ((false, some ("SKU '" ++ sku ++ "' not found")), w2)
    | some current_qty =>
      match f with
      | Fault.putReject s => ((false, some ("Failed to restore inventory: " ++ s)), w2)
      | _ => ((true, none), { w2 with stock := setStock w2.stock sku (current_qty + quantity) })

/-! ## crud.py saga helpers -/

/-- crud.rollback_inventory_deductions: iterate over the FULL item list
and issue a restore for every item whose SKU is in the processed list;
each restore's own failure is logged and ignored. -/
def rollback_inventory_deductions (w : World) (items : List Item)
    (processed_skus : List String) : World :=
  match items with
  | [] => w
  | i :: rest =>
    if i.sku ∈ processed_skus then
      rollback_inventory_deductions (restore_inventory w i.sku i.quantity).2 rest processed_skus
    else
      rollback_inventory_deductions w rest processed_skus

/-- Deduction loop of crud.process_inventory_for_order (deduct=True).
`full` is the complete item list handed to the rollback helper, `processed`
the SKUs deducted so far in order. -/
def processDeductGo (full : List Item) (w : World) (processed : List String) :
    List Item → (Bool × Option String × List String) × World
  | [] => ((true, none, processed), w)
  | i :: rest =>
    if (reduce_inventory w i.sku i.quantity).1.1 then
      processDeductGo full (reduce_inventory w i.sku i.quantity).2 (processed ++ [i.sku]) rest
    else
      ((false, some ("Inventory deduction failed: "
          ++ ((reduce_inventory w i.sku i.quantity).1.2.getD "")), []),
       if processed = [] then (reduce_inventory w i.sku i.quantity).2
       else rollback_inventory_deductions (reduce_inventory w i.sku i.quantity).2 full processed)

/-- Restoration loop of crud.process_inventory_for_order (deduct=False):
keep going past individual failures; always reports overall success. -/
def processRestoreGo (w : World) (processed : List String) :
    List Item → (Bool × Option String × List String) × World
  | [] => ((true, none, processed), w)
  | i :: rest =>
    if (restore_inventory w i.sku i.quantity).1.1 then
      processRestoreGo (restore_inventory w i.sku i.quantity).2 (processed ++ [i.sku]) rest
    else
      processRestoreGo (restore_inventory w i.sku i.quantity).2 processed rest

/-- crud.process_inventory_for_order. -/
def process_inventory_for_order (w : World) (items : List Item) (deduct : Bool) :
    (Bool × Option String × List String) × World :=
  if deduct then processDeductGo items w [] items
  else processRestoreGo w [] items

/-- Reference trace of the deduction sequence: index and client error
message of the first failing reservation (and the world reached then),
or `none` when every reservation succeeds.  This replays exactly the
reduce calls the saga makes before any compensation starts. -/
def firstFailureAux (w : World) : List Item → Option (Nat × String) × World
  | [] => (none, w)
  | i :: rest =>
    if (reduce_inventory w i.sku i.quantity).1.1 then
      ((firstFailureAux (reduce_inventory w i.sku i.quantity).2 rest).1.map
          (fun p => (p.1 + 1, p.2)),
       (firstFailureAux (reduce_inventory w i.sku i.quantity).2 rest).2)
    else
      (some (0, (reduce_inventory w i.sku i.quantity).1.2.getD ""),
       (reduce_inventory w i.sku i.quantity).2)

/-! ## crud.validate_order_data and the endpoint layer (main.py) -/

/-- Stock-availability loop of crud.validate_order_data: one
check_stock_availability remote call per item, in list order; a missing
row counts as quantity 0.  An httpx fault escapes to the enclosing
except-branch of validate_order_data as a "Service communication error". -/
def checkStockLoop (w : World) : List Item → (Bool × Option String) × World
  | [] => ((true, none), w)
  | i :: rest =>
    match (popFault w).1 with
    | Fault.transport s =>
      ((false, some ("Service communication error: " ++ s)), (popFault w).2)
    | _ =>
      let current := (lookupStock ((popFault w).2).stock i.sku).getD 0
      if current ≥ i.quantity then checkStockLoop ((popFault w).2) rest
      else
        ((false, some ("Insufficient stock for SKU '" ++ i.sku ++ "'. Available: "
          ++ toString current ++ ", Required: " ++ toString i.quantity)), (popFault w).2)

/-- The order-create request body (schemas.OrderCreate); the persisted row
(models.Order) carries the same fields, so one structure stands for both
(created_at and the JSONB serialization of items are not modelled). -/
structure OrderRec where
  id : String
  user_id : Int
  total : Rat
  status : String
  items : List Item
deriving DecidableEq

/-- schemas.OrderUpdate: every field optional, `none` = not provided. -/
structure OrderPatch where
  user_id : Option Int
  total : Option Rat
  status : Option String
  items : Option (List Item)
deriving DecidableEq

/-- A timeline row (models.OrderEvent), sans id and timestamp. -/
structure EventRec where
  order_id : String
  event_type : String
  description : String
  old_value : Option String
  new_value : Option String
  user_id : Option Int
deriving DecidableEq

/-- The orders database: order rows (unique ids enforced by the primary
key) and the append-only timeline. -/
structure Db where
  orders : List OrderRec
  events : List EventRec
deriving DecidableEq

/-- The authenticated caller (auth.CurrentUser); the bearer token is
forwarded to remote calls verbatim and carries no behavior, so it is not
modelled. -/
structure CurrentUser where
  id : Int
  role : String
deriving DecidableEq

/-- An HTTPException raised by an endpoint. -/
structure HttpError where
  code : Nat
  detail : String
deriving DecidableEq

/-- crud.validate_order_data: remote user-existence check, then (when the
order has items) existence of every SKU, then per-item stock checks.
httpx errors from any of the remote calls are caught at this level and
reported as "Service communication error". -/
def validate_order_data (w : World) (o : OrderRec) : (Bool × Option String) × World :=
  match (popFault w).1 with
  | Fault.transport s =>
    ((false, some ("Service communication error: " ++ s)), (popFault w).2)
  | _ =>
    let w1 := (popFault w).2
    if o.user_id ∈ w1.users then
      if o.items = [] then ((true, none), w1)
      else
        match (popFault w1).1 with
        | Fault.transport s =>
          ((false, some ("Service communication error: " ++ s)), (popFault w1).2)
        | _ =>
          let w2 := (popFault w1).2
          match (o.items.map Item.sku).find? (fun sku => (lookupStock w2.stock sku).isNone) with
          | some missing =>
            ((false, some ("Inventory item with SKU '" ++ missing ++ "' does not exist")), w2)
          | none => checkStockLoop w2 o.items
    else
      ((false, some ("User with ID " ++ toString o.user_id ++ " does not exist")), w1)

/-- Whether `pat` occurs as a contiguous run at the head of `hay`. -/
def leadsWith : List Char → List Char → Bool
  | [], _ => true
  | _ :: _, [] => false
  | p :: ps, h :: hs => p == h && leadsWith ps hs

/-- Whether `pat` occurs anywhere inside `hay` (python `pat in hay`). -/
def hasSub (pat : List Char) : List Char → Bool
  | [] => leadsWith pat []
  | h :: t => leadsWith pat (h :: t) || hasSub pat t

/-- Python's substring containment test `pat in hay` on strings. -/
def strContainsSub (hay pat : String) : Bool := hasSub pat.data hay.data

/-- Order row persisted by crud.create_order plus the "created" timeline
event appended by main.create_order. -/
def persistCreate (db : Db) (o : OrderRec) (u : CurrentUser) : Db :=
  let ev : EventRec :=
    { order_id := o.id, event_type := "created",
      description := "Order created with status '" ++ o.status ++ "'",
      old_value := none, new_value := some o.status, user_id := some u.id }
  { orders := db.orders ++ [o], events := db.events ++ [ev] }

/-- main.create_order: duplicate-id rejection, ownership check, remote
validation (503 when the failure message contains "Service communication
error", else 400), inventory reservation with rollback (only when the
order has items and is not created already cancelled), then persistence
and the "created" event. -/
def createOrder (db : Db) (w : World) (o : OrderRec) (u : CurrentUser) :
    Except HttpError OrderRec × Db × World :=
  match db.orders.find? (fun r => r.id == o.id) with
  | some _ => (Except.error ⟨400, "Order ID already exists"⟩, db, w)
  | none =>
    if u.role ≠ "admin" ∧ o.user_id ≠ u.id then
      (Except.error ⟨403, "Can only create orders for yourself"⟩, db, w)
    else
      let v := validate_order_data w o
      if v.1.1 = false then
        let msg := v.1.2.getD ""
        if strContainsSub msg "Service communication error" then
          (Except.error ⟨503, msg⟩, db, v.2)
        else (Except.error ⟨400, msg⟩, db, v.2)
      else
        if o.items ≠ [] ∧ o.status ≠ "cancelled" then
          let p := process_inventory_for_order v.2 o.items true
          if p.1.1 = false then
            (Except.error ⟨400, p.1.2.1.getD ""⟩, db, p.2)
          else (Except.ok o, persistCreate db o u, p.2)
        else (Except.ok o, persistCreate db o u, v.2)

/-- crud.update_order applied to one row: only provided fields change. -/
def applyPatch (r : OrderRec) (p : OrderPatch) : OrderRec :=
  { id := r.id,
    user_id := p.user_id.getD r.user_id,
    total := p.total.getD r.total,
    status := p.status.getD r.status,
    items := p.items.getD r.items }

/-- Inventory step of main.update_order for a status change old -> new:
release every item when cancelling, reserve (with internal rollback, via
crud.process_inventory_for_order) when reactivating, nothing otherwise. -/
def inventoryStep (w : World) (oldS newS : String) (items : List Item) :
    (Bool × String) × World :=
  if newS = "cancelled" ∧ oldS ≠ "cancelled" then
    if items ≠ [] then
      let r := process_inventory_for_order w items false
      if r.1.1 then ((true, ""), r.2)
      else ((false, "Failed to restore inventory: " ++ r.1.2.1.getD ""), r.2)
    else ((true, ""), w)
  else if oldS = "cancelled" ∧ newS ≠ "cancelled" then
    if items ≠ [] then
      let r := process_inventory_for_order w items true
      if r.1.1 then ((true, ""), r.2)
      else ((false, "Failed to deduct inventory: " ++ r.1.2.1.getD ""), r.2)
    else ((true, ""), w)
  else ((true, ""), w)

/-- crud.update_order followed by the event logging of main.update_order. -/
def finalizeUpdate (db : Db) (w : World) (orderId : String) (p : OrderPatch)
    (ev : EventRec) : Except HttpError OrderRec × Db × World :=
  match db.orders.find? (fun r => r.id == orderId) with
  | none => (Except.error ⟨404, "Order not found"⟩, db, w)
  | some r =>
    let r' := applyPatch r p
    (Except.ok r',
     { orders := db.orders.map (fun o => if o.id == orderId then r' else o),
       events := db.events ++ [ev] }, w)

/-- main.update_order: fetch, ownership check, the two inventory branches
when the (truthy) requested status differs from the current one, field
update, then a status_changed or updated event.  The status transition
guard is never consulted here. -/
def updateOrder (db : Db) (w : World) (orderId : String) (p : OrderPatch)
    (u : CurrentUser) : Except HttpError OrderRec × Db × World :=
  match db.orders.find? (fun r => r.id == orderId) with
  | none => (Except.error ⟨404, "Order not found"⟩, db, w)
  | some existing =>
    if u.role ≠ "admin" ∧ existing.user_id ≠ u.id then
      (Except.error ⟨403, "Not authorized to update this order"⟩, db, w)
    else
      match p.status with
      | some s =>
        if s ≠ "" ∧ s ≠ existing.status then
          let step := inventoryStep w existing.status s existing.items
          if step.1.1 then
            finalizeUpdate db step.2 orderId p
              { order_id := orderId, event_type := "status_changed",
                description := "Status changed from '" ++ existing.status
                  ++ "' to '" ++ s ++ "'",
                old_value := some existing.status, new_value := some s,
                user_id := some u.id }
          else (Except.error ⟨400, step.1.2⟩, db, step.2)
        else
          finalizeUpdate db w orderId p
            { order_id := orderId, event_type := "updated",
              description := "Order details updated",
              old_value := none, new_value := none, user_id := some u.id }
      | none =>
        finalizeUpdate db w orderId p
          { order_id := orderId, event_type := "updated",
            description := "Order details updated",
            old_value := none, new_value := none, user_id := some u.id }

/-- A reserve call leaves the restore log unchanged. -/
theorem reduce_inventory_restoreLog (w : World) (s : String) (q : Int) :
    ((reduce_inventory w s q).2).restoreLog = w.restoreLog := by
  rcases w with ⟨st, us, fs, rl, sl⟩
  rcases fs with _ | ⟨f, rest⟩
  · simp only [reduce_inventory, popFault]
    rcases hl : lookupStock st s with _ | cur <;> simp only [hl] <;> (try split) <;> rfl
  · cases f <;> simp only [reduce_inventory, popFault] <;>
      (try (rcases hl : lookupStock st s with _ | cur <;> simp only [hl] <;> (try split))) <;> rfl

/-- A reserve call appends exactly one entry to the reserve log. -/
theorem reduce_inventory_reduceLog (w : World) (s : String) (q : Int) :
    ((reduce_inventory w s q).2).reduceLog = w.reduceLog ++ [(s, q)] := by
  rcases w with ⟨st, us, fs, rl, sl⟩
  rcases fs with _ | ⟨f, rest⟩
  · simp only [reduce_inventory, popFault]
    rcases hl : lookupStock st s with _ | cur <;> simp only [hl] <;> (try split) <;> rfl
  · cases f <;> simp only [reduce_inventory, popFault] <;>
      (try (rcases hl : lookupStock st s with _ | cur <;> simp only [hl] <;> (try split))) <;> rfl

/-- A release call appends exactly one entry to the restore log. -/
theorem restore_inventory_restoreLog (w : World) (s : String) (q : Int) :
    ((restore_inventory w s q).2).restoreLog = w.restoreLog ++ [(s, q)] := by
  rcases w with ⟨st, us, fs, rl, sl⟩
  rcases fs with _ | ⟨f, rest⟩
  · simp only [restore_inventory, popFault]
    rcases hl : lookupStock st s with _ | cur <;> simp only [hl] <;> (try split) <;> rfl
  · cases f <;> simp only [restore_inventory, popFault] <;>
      (try (rcases hl : lookupStock st s with _ | cur <;> simp only [hl] <;> (try split))) <;> rfl

/-- A release call leaves the reserve log unchanged. -/
theorem restore_inventory_reduceLog (w : World) (s : String) (q : Int) :
    ((restore_inventory w s q).2).reduceLog = w.reduceLog := by
  rcases w with ⟨st, us, fs, rl, sl⟩
  rcases fs with _ | ⟨f, rest⟩
  · simp only [restore_inventory, popFault]
    rcases hl : lookupStock st s with _ | cur <;> simp only [hl] <;> (try split) <;> rfl
  · cases f <;> simp only [restore_inventory, popFault] <;>
      (try (rcases hl : lookupStock st s with _ | cur <;> simp only [hl] <;> (try split))) <;> rfl

/-- The rollback helper issues exactly one release per item of the full
list whose SKU is in the processed list, in list order. -/
theorem rollback_restoreLog (items : List Item) :
    ∀ (w : World) (processed : List String),
    (rollback_inventory_deductions w items processed).restoreLog =
      w.restoreLog ++ (items.filter (fun i => decide (i.sku ∈ processed))).map
        (fun i => (i.sku, i.quantity)) := by
  induction items with
  | nil => intro w processed; simp [rollback_inventory_deductions]
  | cons a t ih =>
    intro w processed
    by_cases h : a.sku ∈ processed
    · simp [rollback_inventory_deductions, if_pos h, ih, restore_inventory_restoreLog,
        List.filter_cons, h]
    · simp [rollback_inventory_deductions, if_neg h, ih, List.filter_cons, h]

/-- The rollback helper issues no reserve calls. -/
theorem rollback_reduceLog (items : List Item) :
    ∀ (w : World) (processed : List String),
    (rollback_inventory_deductions w items processed).reduceLog = w.reduceLog := by
  induction items with
  | nil => intro w processed; simp [rollback_inventory_deductions]
  | cons a t ih =>
    intro w processed
    by_cases h : a.sku ∈ processed
    · simp only [rollback_inventory_deductions, if_pos h, ih, restore_inventory_reduceLog]
    · simp only [rollback_inventory_deductions, if_neg h, ih]

/-- Replaying the reservation prefix touches no restore state. -/
theorem firstFailureAux_restoreLog (items : List Item) :
    ∀ (w : World), ((firstFailureAux w items).2).restoreLog = w.restoreLog := by
  induction items with
  | nil => intro w; rfl
  | cons a t ih =>
    intro w
    by_cases h : (reduce_inventory w a.sku a.quantity).1.1
    · simp only [firstFailureAux, if_pos h, ih, reduce_inventory_restoreLog]
    · simp only [firstFailureAux, if_neg h, reduce_inventory_restoreLog]

/-- A failing reservation trace stops at an index inside the list. -/
theorem firstFailureAux_lt (items : List Item) :
    ∀ (w : World) (k : Nat) (msg : String),
    (firstFailureAux w items).1 = some (k, msg) → k < items.length := by
  induction items with
  | nil => intro w k msg h; simp [firstFailureAux] at h
  | cons a t ih =>
    intro w k msg h
    by_cases hb : (reduce_inventory w a.sku a.quantity).1.1
    · simp only [firstFailureAux, if_pos hb, Option.map_eq_some'] at h
      obtain ⟨⟨k', m'⟩, hk', heq⟩ := h
      obtain ⟨hk, hm⟩ := Prod.mk.injEq .. ▸ heq
      subst hk
      have := ih _ _ _ hk'
      simp
      omega
    · simp only [firstFailureAux, if_neg hb, Option.some.injEq, Prod.mk.injEq] at h
      simp [← h.1]

/-- An all-success reservation trace issues one reserve call per item. -/
theorem firstFailureAux_reduceLog_none (items : List Item) :
    ∀ (w : World), (firstFailureAux w items).1 = none →
    ((firstFailureAux w items).2).reduceLog =
      w.reduceLog ++ items.map (fun i => (i.sku, i.quantity)) := by
  induction items with
  | nil => intro w _; simp [firstFailureAux]
  | cons a t ih =>
    intro w h
    by_cases hb : (reduce_inventory w a.sku a.quantity).1.1
    · simp only [firstFailureAux, if_pos hb, Option.map_eq_none'] at h ⊢
      rw [ih _ h, reduce_inventory_reduceLog]
      simp
    · simp [firstFailureAux, if_neg hb] at h

/-- A reservation trace failing at index k issues exactly k+1 reserve
calls: the k successes and the failing attempt, in list order. -/
theorem firstFailureAux_reduceLog_some (items : List Item) :
    ∀ (w : World) (k : Nat) (msg : String), (firstFailureAux w items).1 = some (k, msg) →
    ((firstFailureAux w items).2).reduceLog =
      w.reduceLog ++ (items.take (k + 1)).map (fun i => (i.sku, i.quantity)) := by
  induction items with
  | nil => intro w k msg h; simp [firstFailureAux] at h
  | cons a t ih =>
    intro w k msg h
    by_cases hb : (reduce_inventory w a.sku a.quantity).1.1
    · simp only [firstFailureAux, if_pos hb, Option.map_eq_some'] at h ⊢
      obtain ⟨⟨k', m'⟩, hk', heq⟩ := h
      obtain ⟨hk, hm⟩ := Prod.mk.injEq .. ▸ heq
      subst hk
      rw [ih _ _ _ hk', reduce_inventory_reduceLog]
      simp
    · simp only [firstFailureAux, if_neg hb, Option.some.injEq, Prod.mk.injEq] at h
      rw [← h.1]
      simp [firstFailureAux, if_neg hb, reduce_inventory_reduceLog]

/-- When every reservation succeeds, the deduction loop reports success,
appends every SKU to the processed list, and ends in the trace's world. -/
theorem processDeductGo_none (rest : List Item) :
    ∀ (w : World) (processed : List String) (full : List Item),
    (firstFailureAux w rest).1 = none →
    processDeductGo full w processed rest =
      ((true, none, processed ++ rest.map Item.sku), (firstFailureAux w rest).2) := by
  induction rest with
  | nil => intro w processed full _; simp [processDeductGo, firstFailureAux]
  | cons a t ih =>
    intro w processed full h
    by_cases hb : (reduce_inventory w a.sku a.quantity).1.1
    · simp only [firstFailureAux, if_pos hb, Option.map_eq_none'] at h
      simp only [processDeductGo, if_pos hb, firstFailureAux, ih _ _ _ h]
      simp [firstFailureAux, if_pos hb]
    · simp [firstFailureAux, if_neg hb] at h

/-- When the reservation of the item at index k fails, the deduction loop
reports the reserve failure's own message wrapped as an inventory
deduction failure, and compensates (when anything was reserved) by
handing the full list and the processed prefix to the rollback helper. -/
theorem processDeductGo_some (rest : List Item) :
    ∀ (w : World) (processed : List String) (full : List Item) (k : Nat) (msg : String),
    (firstFailureAux w rest).1 = some (k, msg) →
    processDeductGo full w processed rest =
      ((false, some ("Inventory deduction failed: " ++ msg), []),
       if processed ++ (rest.take k).map Item.sku = [] then (firstFailureAux w rest).2
       else rollback_inventory_deductions (firstFailureAux w rest).2 full
         (processed ++ (rest.take k).map Item.sku)) := by
  induction rest with
  | nil => intro w processed full k msg h; simp [firstFailureAux] at h
  | cons a t ih =>
    intro w processed full k msg h
    by_cases hb : (reduce_inventory w a.sku a.quantity).1.1
    · simp only [firstFailureAux, if_pos hb, Option.map_eq_some'] at h
      obtain ⟨⟨k', m'⟩, hk', heq⟩ := h
      obtain ⟨hk, hm⟩ := Prod.mk.injEq .. ▸ heq
      subst hk
      subst hm
      simp only [processDeductGo, if_pos hb, ih _ _ _ _ _ hk']
      simp only [firstFailureAux, if_pos hb, List.take_succ_cons, List.map_cons,
        List.append_assoc, List.singleton_append]
    · simp only [firstFailureAux, if_neg hb, Option.some.injEq, Prod.mk.injEq] at h
      obtain ⟨hk, hm⟩ := h
      subst hm
      simp only [processDeductGo, if_neg hb, firstFailureAux, ← hk]
      simp only [List.take_zero, List.map_nil, List.append_nil]

/-- The restoration loop always reports success and issues one release
per item, in list order, regardless of individual release failures. -/
theorem processRestoreGo_spec (items : List Item) :
    ∀ (w : World) (processed : List String),
    ((processRestoreGo w processed items).1.1 = true ∧
     (processRestoreGo w processed items).1.2.1 = none) ∧
    ((processRestoreGo w processed items).2).restoreLog =
      w.restoreLog ++ items.map (fun i => (i.sku, i.quantity)) := by
  induction items with
  | nil => intro w processed; simp [processRestoreGo]
  | cons a t ih =>
    intro w processed
    by_cases hb : (restore_inventory w a.sku a.quantity).1.1
    · simp only [processRestoreGo, if_pos hb]
      refine ⟨(ih _ _).1, ?_⟩
      rw [(ih _ _).2, restore_inventory_restoreLog]
      simp
    · simp only [processRestoreGo, if_neg hb]
      refine ⟨(ih _ _).1, ?_⟩
      rw [(ih _ _).2, restore_inventory_restoreLog]
      simp

/-- With pairwise-distinct SKUs, filtering a list by membership of the
SKU in the first k SKUs recovers exactly the first k items. -/
theorem filter_sku_take_of_nodup (l : List Item) (k : Nat)
    (h : (l.map Item.sku).Nodup) :
    l.filter (fun i => decide (i.sku ∈ (l.take k).map Item.sku)) = l.take k := by
  have hsplit : l = l.take k ++ l.drop k := (List.take_append_drop k l).symm
  have hmap : ((l.take k).map Item.sku ++ (l.drop k).map Item.sku).Nodup := by
    rw [← List.map_append, ← hsplit]; exact h
  have hdisj : ((l.take k).map Item.sku).Disjoint ((l.drop k).map Item.sku) :=
    List.disjoint_of_nodup_append hmap
  have hcong : l.filter (fun i => decide (i.sku ∈ (l.take k).map Item.sku)) =
      (l.take k ++ l.drop k).filter (fun i => decide (i.sku ∈ (l.take k).map Item.sku)) :=
    congrArg (List.filter (fun i => decide (i.sku ∈ (l.take k).map Item.sku))) hsplit
  rw [hcong, List.filter_append]
  have h1 : (l.take k).filter (fun i => decide (i.sku ∈ (l.take k).map Item.sku)) = l.take k := by
    apply List.filter_eq_self.mpr
    intro a ha
    simp only [decide_eq_true_eq]
    exact List.mem_map_of_mem Item.sku ha
  have h2 : (l.drop k).filter (fun i => decide (i.sku ∈ (l.take k).map Item.sku)) = [] := by
    apply List.filter_eq_nil.mpr
    intro a ha
    simp only [decide_eq_true_eq]
    intro hmem
    exact hdisj hmem (List.mem_map_of_mem Item.sku ha)
  rw [h1, h2, List.append_nil]

/-- A nonempty literal prefix makes a string concatenation nonempty. -/
theorem append_left_ne_empty (a b : String) (ha : a.length ≠ 0) : a ++ b ≠ "" := by
  intro hc
  have hlen := congrArg String.length hc
  rw [String.length_append] at hlen
  have h0 : ("" : String).length = 0 := rfl
  rw [h0] at hlen
  omega

/-- Per-item validation messages are never empty. -/
theorem item_msg_ne_empty (sku suffix : String) : "Item " ++ sku ++ suffix ≠ "" := by
  intro hc
  have hlen := congrArg String.length hc
  rw [String.length_append, String.length_append] at hlen
  have h5 : ("Item " : String).length = 5 := rfl
  have h0 : ("" : String).length = 0 := rfl
  rw [h5, h0] at hlen
  omega

/-- Shared helper: full characterization of a failing deduction run. -/
theorem process_deduct_failure_spec (w : World) (items : List Item)
    (k : Nat) (msg : String)
    (hnodup : (items.map Item.sku).Nodup)
    (hfail : (firstFailureAux w items).1 = some (k, msg)) :
    (process_inventory_for_order w items true).1 =
      (false, some ("Inventory deduction failed: " ++ msg), []) ∧
    ((process_inventory_for_order w items true).2).restoreLog =
      w.restoreLog ++ (items.take k).map (fun i => (i.sku, i.quantity)) ∧
    ((process_inventory_for_order w items true).2).reduceLog =
      w.reduceLog ++ (items.take (k + 1)).map (fun i => (i.sku, i.quantity)) ∧
    k < items.length := by
  have hrun := processDeductGo_some items w [] items k msg hfail
  have hproc : process_inventory_for_order w items true = processDeductGo items w [] items := rfl
  rw [hproc, hrun]
  simp only [List.nil_append]
  by_cases hk : (items.take k).map Item.sku = []
  · rw [if_pos hk]
    have htake : items.take k = [] := List.map_eq_nil.mp hk
    refine ⟨trivial, ?_, ?_, firstFailureAux_lt items w k msg hfail⟩
    · rw [firstFailureAux_restoreLog, htake]
      simp
    · rw [firstFailureAux_reduceLog_some items w k msg hfail]
  · rw [if_neg hk]
    refine ⟨trivial, ?_, ?_, firstFailureAux_lt items w k msg hfail⟩
    · rw [rollback_restoreLog, firstFailureAux_restoreLog,
        filter_sku_take_of_nodup items k hnodup]
    · rw [rollback_reduceLog, firstFailureAux_reduceLog_some items w k msg hfail]

/-- Claim C1 is false as stated: with duplicate SKUs ([A,A], stock 1) the
reservation of the 2nd item fails after 1 successful reservation, yet two
compensating releases are issued (one per line whose SKU was processed),
not k-1 = 1, and they are not the reserved prefix. -/
theorem c1_counterexample :
    (firstFailureAux ⟨[("A", 1)], [], [], [], []⟩ [⟨"A", 1, 0⟩, ⟨"A", 1, 0⟩]).1 =
      some (1, "Insufficient inventory for SKU 'A'. Available: 0, Requested: 1") ∧
    ((process_inventory_for_order ⟨[("A", 1)], [], [], [], []⟩
        [⟨"A", 1, 0⟩, ⟨"A", 1, 0⟩] true).2).restoreLog = [("A", 1), ("A", 1)] ∧
    [("A", 1), ("A", 1)] ≠
      ([⟨"A", 1, 0⟩, ⟨"A", 1, 0⟩].take 1).map (fun i : Item => (i.sku, i.quantity)) := by
  refine ⟨by decide, by decide, by decide⟩

/-- Claim C1 (amended: restricted to item lists with pairwise-distinct
SKUs): when the reservation of the item at 0-based index k fails, the
create saga issues exactly k compensating releases, one per
already-reserved SKU, in reservation order, reports the original
reservation failure message (never a compensation failure, for every
fault schedule, so also when a release itself fails), and issued exactly
the k+1 reserve calls of the attempted prefix. -/
theorem c1_create_rollback (w : World) (items : List Item) (k : Nat) (msg : String)
    (hnodup : (items.map Item.sku).Nodup)
    (hfail : (firstFailureAux w items).1 = some (k, msg)) :
    (process_inventory_for_order w items true).1 =
      (false, some ("Inventory deduction failed: " ++ msg), []) ∧
    ((process_inventory_for_order w items true).2).restoreLog =
      w.restoreLog ++ (items.take k).map (fun i => (i.sku, i.quantity)) ∧
    ((process_inventory_for_order w items true).2).reduceLog =
      w.reduceLog ++ (items.take (k + 1)).map (fun i => (i.sku, i.quantity)) ∧
    k < items.length :=
  process_deduct_failure_spec w items k msg hnodup hfail

/-- Witness for C1: stock A=5,B=0, items [A:2, B:1], a transport fault
hitting the compensating release; the saga still reports the insufficient
stock failure for B and issued exactly the release of A. -/
theorem c1_witness :
    (process_inventory_for_order
        ⟨[("A", 5), ("B", 0)], [], [Fault.ok, Fault.ok, Fault.transport "boom"], [], []⟩
        [⟨"A", 2, 0⟩, ⟨"B", 1, 0⟩] true).1 =
      (false, some "Inventory deduction failed: Insufficient inventory for SKU 'B'. Available: 0, Requested: 1", []) ∧
    ((process_inventory_for_order
        ⟨[("A", 5), ("B", 0)], [], [Fault.ok, Fault.ok, Fault.transport "boom"], [], []⟩
        [⟨"A", 2, 0⟩, ⟨"B", 1, 0⟩] true).2).restoreLog = [("A", 2)] := by
  have h := c1_create_rollback
    ⟨[("A", 5), ("B", 0)], [], [Fault.ok, Fault.ok, Fault.transport "boom"], [], []⟩
    [⟨"A", 2, 0⟩, ⟨"B", 1, 0⟩] 1
    "Insufficient inventory for SKU 'B'. Available: 0, Requested: 1"
    (by decide) (by decide)
  exact ⟨h.1, by rw [h.2.1]; decide⟩

/-- Claim C10: the rollback helper releases the quantity of every line
item whose SKU is in the processed list, including lines never reserved;
concretely, for items [A:1, A:2] with stock A=1, the run deducts 1, fails
on the second line, issues releases of 1 and 2, and leaves stock at 3 -
more than was ever deducted. -/
theorem c10_rollback_by_sku_membership :
    (∀ (w : World) (items : List Item) (processed : List String),
      (rollback_inventory_deductions w items processed).restoreLog =
        w.restoreLog ++ (items.filter (fun i => decide (i.sku ∈ processed))).map
          (fun i => (i.sku, i.quantity))) ∧
    (process_inventory_for_order ⟨[("A", 1)], [], [], [], []⟩
        [⟨"A", 1, 0⟩, ⟨"A", 2, 0⟩] true).1.1 = false ∧
    ((process_inventory_for_order ⟨[("A", 1)], [], [], [], []⟩
        [⟨"A", 1, 0⟩, ⟨"A", 2, 0⟩] true).2).restoreLog = [("A", 1), ("A", 2)] ∧
    lookupStock ((process_inventory_for_order ⟨[("A", 1)], [], [], [], []⟩
        [⟨"A", 1, 0⟩, ⟨"A", 2, 0⟩] true).2).stock "A" = some 3 :=
  ⟨fun w items processed => rollback_restoreLog items w processed,
   by decide, by decide, by decide⟩

/-- A status is a key of the transition table iff it is one of the five. -/
theorem valid_transitions_eq_none (s : String) :
    valid_transitions s = none ↔ s ∉ statusList := by
  simp only [valid_transitions, statusList, List.mem_cons, List.not_mem_nil, or_false]
  split_ifs with h1 h2 h3 h4 h5 <;> simp_all

/-- Claim C2: the transition guard accepts exactly the no-op pairs and
the six enumerated edges over the five statuses, rejects everything else
with a nonempty reason, and rejects a status outside the enum with a
reason naming the offending side's status string (the old side being
reported first). -/
theorem c2_status_guard (old_status new_status : String) :
    ((validate_order_status_transition old_status new_status).1 = true ↔
      (old_status ∈ statusList ∧ new_status ∈ statusList ∧
       (old_status = new_status ∨ (old_status, new_status) ∈ legalEdges))) ∧
    ((validate_order_status_transition old_status new_status).1 = false →
      (validate_order_status_transition old_status new_status).2 ≠ "") ∧
    (old_status ∉ statusList →
      validate_order_status_transition old_status new_status =
        (false, "Unknown status: " ++ old_status)) ∧
    (old_status ∈ statusList → new_status ∉ statusList →
      validate_order_status_transition old_status new_status =
        (false, "Unknown status: " ++ new_status)) := by
  by_cases hOld : old_status ∈ statusList
  · by_cases hNew : new_status ∈ statusList
    · have hOld' := hOld
      have hNew' := hNew
      simp only [statusList, List.mem_cons, List.not_mem_nil, or_false] at hOld' hNew'
      rcases hOld' with rfl | rfl | rfl | rfl | rfl <;>
        rcases hNew' with rfl | rfl | rfl | rfl | rfl <;> decide
    · have hn : valid_transitions new_status = none := (valid_transitions_eq_none _).mpr hNew
      have ho : ∃ allowed, valid_transitions old_status = some allowed := by
        rcases h : valid_transitions old_status with _ | allowed
        · exact absurd ((valid_transitions_eq_none _).mp h) (not_not_intro hOld)
        · exact ⟨allowed, rfl⟩
      obtain ⟨allowed, hl⟩ := ho
      unfold validate_order_status_transition
      rw [hl, hn]
      refine ⟨by simp [hNew], fun _ => append_left_ne_empty _ _ (by decide), ?_, fun _ _ => rfl⟩
      intro hcon
      exact absurd hOld hcon
  · have ho : valid_transitions old_status = none := (valid_transitions_eq_none _).mpr hOld
    unfold validate_order_status_transition
    rw [ho]
    refine ⟨by simp [hOld], fun _ => append_left_ne_empty _ _ (by decide), fun _ => rfl, ?_⟩
    intro hcon _
    exact absurd hcon hOld

/-- The per-item loop accepts iff every item satisfies all four bounds. -/
theorem checkItemsLoop_true_iff (l : List Item) :
    (checkItemsLoop l).1 = true ↔
      ∀ i ∈ l, 0 < i.quantity ∧ i.quantity ≤ 10000 ∧ 0 ≤ i.price ∧ i.price ≤ 1000000 := by
  induction l with
  | nil => simp [checkItemsLoop]
  | cons a t ih =>
    simp only [checkItemsLoop]
    split_ifs with h1 h2 h3 h4
    · simp only [List.forall_mem_cons]
      constructor
      · intro hf; simp at hf
      · intro h; exact absurd h.1.1 (by omega)
    · simp only [List.forall_mem_cons]
      constructor
      · intro hf; simp at hf
      · intro h; exact absurd h.1.2.1 (by omega)
    · simp only [List.forall_mem_cons]
      constructor
      · intro hf; simp at hf
      · intro h; exact absurd h.1.2.2.1 (by linarith)
    · simp only [List.forall_mem_cons]
      constructor
      · intro hf; simp at hf
      · intro h; exact absurd h.1.2.2.2 (by linarith)
    · rw [ih]
      simp only [List.forall_mem_cons]
      constructor
      · intro h
        exact ⟨⟨by omega, by omega, by linarith [not_lt.mp h3], by linarith [not_lt.mp h4]⟩, h⟩
      · intro h; exact h.2

/-- A rejecting per-item loop always carries a nonempty message. -/
theorem checkItemsLoop_false_msg (l : List Item) :
    (checkItemsLoop l).1 = false → (checkItemsLoop l).2 ≠ "" := by
  induction l with
  | nil => simp [checkItemsLoop]
  | cons a t ih =>
    simp only [checkItemsLoop]
    split_ifs <;>
      first
        | exact fun _ => item_msg_ne_empty a.sku _
        | exact ih

/-- With only the quantity-positivity constraint violated, the loop
rejects naming that constraint. -/
theorem checkItemsLoop_qty_nonpos (l : List Item)
    (hex : ∃ i ∈ l, i.quantity ≤ 0)
    (hfine : ∀ i ∈ l, i.quantity ≤ 10000 ∧ 0 ≤ i.price ∧ i.price ≤ 1000000) :
    ∃ s, checkItemsLoop l = (false, "Item " ++ s ++ ": quantity must be positive") := by
  induction l with
  | nil => simp at hex
  | cons a t ih =>
    by_cases h1 : a.quantity ≤ 0
    · exact ⟨a.sku, by simp [checkItemsLoop, h1]⟩
    · have hfa := hfine a (List.mem_cons_self a t)
      have hskip : checkItemsLoop (a :: t) = checkItemsLoop t := by
        simp only [checkItemsLoop]
        rw [if_neg h1, if_neg (by omega), if_neg (by linarith [hfa.2.1]),
          if_neg (by linarith [hfa.2.2])]
      rw [hskip]
      apply ih
      · rcases hex with ⟨i, hi, hq⟩
        rcases List.mem_cons.mp hi with rfl | hit
        · exact absurd hq h1
        · exact ⟨i, hit, hq⟩
      · intro i hi; exact hfine i (List.mem_cons_of_mem a hi)

/-- With only the quantity upper bound violated, the loop rejects naming
that constraint. -/
theorem checkItemsLoop_qty_high (l : List Item)
    (hex : ∃ i ∈ l, i.quantity > 10000)
    (hfine : ∀ i ∈ l, 0 < i.quantity ∧ 0 ≤ i.price ∧ i.price ≤ 1000000) :
    ∃ s, checkItemsLoop l = (false, "Item " ++ s ++ ": quantity exceeds maximum (10000)") := by
  induction l with
  | nil => simp at hex
  | cons a t ih =>
    have hfa := hfine a (List.mem_cons_self a t)
    by_cases h2 : a.quantity > 10000
    · refine ⟨a.sku, ?_⟩
      simp only [checkItemsLoop]
      rw [if_neg (by omega), if_pos h2]
    · have hskip : checkItemsLoop (a :: t) = checkItemsLoop t := by
        simp only [checkItemsLoop]
        rw [if_neg (by omega), if_neg h2, if_neg (by linarith [hfa.2.1]),
          if_neg (by linarith [hfa.2.2])]
      rw [hskip]
      apply ih
      · rcases hex with ⟨i, hi, hq⟩
        rcases List.mem_cons.mp hi with rfl | hit
        · exact absurd hq h2
        · exact ⟨i, hit, hq⟩
      · intro i hi; exact hfine i (List.mem_cons_of_mem a hi)

/-- With only price nonnegativity violated, the loop rejects naming that
constraint. -/
theorem checkItemsLoop_price_neg (l : List Item)
    (hex : ∃ i ∈ l, i.price < 0)
    (hfine : ∀ i ∈ l, 0 < i.quantity ∧ i.quantity ≤ 10000 ∧ i.price ≤ 1000000) :
    ∃ s, checkItemsLoop l = (false, "Item " ++ s ++ ": price cannot be negative") := by
  induction l with
  | nil => simp at hex
  | cons a t ih =>
    have hfa := hfine a (List.mem_cons_self a t)
    by_cases h3 : a.price < 0
    · refine ⟨a.sku, ?_⟩
      simp only [checkItemsLoop]
      rw [if_neg (by omega), if_neg (by omega), if_pos h3]
    · have hskip : checkItemsLoop (a :: t) = checkItemsLoop t := by
        simp only [checkItemsLoop]
        rw [if_neg (by omega), if_neg (by omega), if_neg h3, if_neg (by linarith [hfa.2.2])]
      rw [hskip]
      apply ih
      · rcases hex with ⟨i, hi, hq⟩
        rcases List.mem_cons.mp hi with rfl | hit
        · exact absurd hq h3
        · exact ⟨i, hit, hq⟩
      · intro i hi; exact hfine i (List.mem_cons_of_mem a hi)

/-- With only the price upper bound violated, the loop rejects naming
that constraint. -/
theorem checkItemsLoop_price_high (l : List Item)
    (hex : ∃ i ∈ l, i.price > 1000000)
    (hfine : ∀ i ∈ l, 0 < i.quantity ∧ i.quantity ≤ 10000 ∧ 0 ≤ i.price) :
    ∃ s, checkItemsLoop l = (false, "Item " ++ s ++ ": price exceeds maximum (1,000,000)") := by
  induction l with
  | nil => simp at hex
  | cons a t ih =>
    have hfa := hfine a (List.mem_cons_self a t)
    by_cases h4 : a.price > 1000000
    · refine ⟨a.sku, ?_⟩
      simp only [checkItemsLoop]
      rw [if_neg (by omega), if_neg (by omega), if_neg (by linarith [hfa.2.2]), if_pos h4]
    · have hskip : checkItemsLoop (a :: t) = checkItemsLoop t := by
        simp only [checkItemsLoop]
        rw [if_neg (by omega), if_neg (by omega), if_neg (by linarith [hfa.2.2]), if_neg h4]
      rw [hskip]
      apply ih
      · rcases hex with ⟨i, hi, hq⟩
        rcases List.mem_cons.mp hi with rfl | hit
        · exact absurd hq h4
        · exact ⟨i, hit, hq⟩
      · intro i hi; exact hfine i (List.mem_cons_of_mem a hi)

/-- Claim C9: validate_order_items accepts exactly the nonempty lists of
at most 100 items with distinct SKUs, quantities in [1,10000] and prices
in [0,1000000]; each violation in isolation is rejected with the reason
naming that constraint. -/
theorem c9_validate_items (items : List Item) :
    ((validate_order_items items).1 = true ↔
      (items ≠ [] ∧ items.length ≤ 100 ∧ (items.map Item.sku).Nodup ∧
       ∀ i ∈ items, 0 < i.quantity ∧ i.quantity ≤ 10000 ∧ 0 ≤ i.price ∧ i.price ≤ 1000000)) ∧
    ((validate_order_items items).1 = false → (validate_order_items items).2 ≠ "") ∧
    (items = [] →
      validate_order_items items = (false, "Order must contain at least one item")) ∧
    (items.length > 100 →
      validate_order_items items = (false, "Order cannot contain more than 100 items")) ∧
    (items ≠ [] → items.length ≤ 100 → ¬(items.map Item.sku).Nodup →
      validate_order_items items = (false, "Order contains duplicate SKUs")) ∧
    (items ≠ [] → items.length ≤ 100 → (items.map Item.sku).Nodup →
      (∃ i ∈ items, i.quantity ≤ 0) →
      (∀ i ∈ items, i.quantity ≤ 10000 ∧ 0 ≤ i.price ∧ i.price ≤ 1000000) →
      ∃ s, validate_order_items items =
        (false, "Item " ++ s ++ ": quantity must be positive")) ∧
    (items ≠ [] → items.length ≤ 100 → (items.map Item.sku).Nodup →
      (∃ i ∈ items, i.quantity > 10000) →
      (∀ i ∈ items, 0 < i.quantity ∧ 0 ≤ i.price ∧ i.price ≤ 1000000) →
      ∃ s, validate_order_items items =
        (false, "Item " ++ s ++ ": quantity exceeds maximum (10000)")) ∧
    (items ≠ [] → items.length ≤ 100 → (items.map Item.sku).Nodup →
      (∃ i ∈ items, i.price < 0) →
      (∀ i ∈ items, 0 < i.quantity ∧ i.quantity ≤ 10000 ∧ i.price ≤ 1000000) →
      ∃ s, validate_order_items items =
        (false, "Item " ++ s ++ ": price cannot be negative")) ∧
    (items ≠ [] → items.length ≤ 100 → (items.map Item.sku).Nodup →
      (∃ i ∈ items, i.price > 1000000) →
      (∀ i ∈ items, 0 < i.quantity ∧ i.quantity ≤ 10000 ∧ 0 ≤ i.price) →
      ∃ s, validate_order_items items =
        (false, "Item " ++ s ++ ": price exceeds maximum (1,000,000)")) := by
  have hpass : ∀ (hne : items ≠ []) (hle : ¬items.length > 100)
      (hnd : (items.map Item.sku).Nodup),
      validate_order_items items = checkItemsLoop items := by
    intro hne hle hnd
    unfold validate_order_items
    rw [if_neg hne, if_neg hle, if_neg (not_not_intro hnd)]
  refine ⟨?_, ?_, ?_, ?_, ?_, ?_, ?_, ?_, ?_⟩
  · by_cases hne : items = []
    · subst hne
      simp [validate_order_items]
    · by_cases hlong : items.length > 100
      · have : validate_order_items items =
            (false, "Order cannot contain more than 100 items") := by
          unfold validate_order_items
          rw [if_neg hne, if_pos hlong]
        rw [this]
        constructor
        · intro hf; simp at hf
        · intro h; omega
      · by_cases hnd : (items.map Item.sku).Nodup
        · rw [hpass hne hlong hnd, checkItemsLoop_true_iff]
          constructor
          · intro h; exact ⟨hne, by omega, hnd, h⟩
          · intro h; exact h.2.2.2
        · have : validate_order_items items = (false, "Order contains duplicate SKUs") := by
            unfold validate_order_items
            rw [if_neg hne, if_neg hlong, if_pos hnd]
          rw [this]
          constructor
          · intro hf; simp at hf
          · intro h; exact absurd h.2.2.1 hnd
  · by_cases hne : items = []
    · subst hne
      intro _
      decide
    · by_cases hlong : items.length > 100
      · have heq : validate_order_items items =
            (false, "Order cannot contain more than 100 items") := by
          unfold validate_order_items
          rw [if_neg hne, if_pos hlong]
        rw [heq]
        intro _
        decide
      · by_cases hnd : (items.map Item.sku).Nodup
        · rw [hpass hne hlong hnd]
          exact checkItemsLoop_false_msg items
        · have heq : validate_order_items items = (false, "Order contains duplicate SKUs") := by
            unfold validate_order_items
            rw [if_neg hne, if_neg hlong, if_pos hnd]
          rw [heq]
          intro _
          decide
  · intro he
    subst he
    decide
  · intro hlong
    have hne : items ≠ [] := by
      intro h
      subst h
      simp at hlong
    unfold validate_order_items
    rw [if_neg hne, if_pos hlong]
  · intro hne hle hnd
    unfold validate_order_items
    rw [if_neg hne, if_neg (by omega), if_pos hnd]
  · intro hne hle hnd hex hfine
    rw [hpass hne (by omega) hnd]
    exact checkItemsLoop_qty_nonpos items hex hfine
  · intro hne hle hnd hex hfine
    rw [hpass hne (by omega) hnd]
    exact checkItemsLoop_qty_high items hex hfine
  · intro hne hle hnd hex hfine
    rw [hpass hne (by omega) hnd]
    exact checkItemsLoop_price_neg items hex hfine
  · intro hne hle hnd hex hfine
    rw [hpass hne (by omega) hnd]
    exact checkItemsLoop_price_high items hex hfine

/-- Claim C7: creating an order whose id already exists is rejected with
a 400 before any remote call: the database (orders and events) and the
world (stock, fault schedule, reserve and restore logs) are returned
untouched. -/
theorem c7_duplicate_id (db : Db) (w : World) (o : OrderRec) (u : CurrentUser)
    (r : OrderRec) (hdup : db.orders.find? (fun x => x.id == o.id) = some r) :
    createOrder db w o u = (Except.error ⟨400, "Order ID already exists"⟩, db, w) := by
  unfold createOrder
  rw [hdup]

/-- Witness for C7 at a one-order database. -/
theorem c7_witness :
    createOrder ⟨[⟨"O1", 7, 50, "pending", []⟩], []⟩ ⟨[], [], [], [], []⟩
        ⟨"O1", 7, 50, "pending", []⟩ ⟨7, "user"⟩ =
      (Except.error ⟨400, "Order ID already exists"⟩,
       ⟨[⟨"O1", 7, 50, "pending", []⟩], []⟩, ⟨[], [], [], [], []⟩) :=
  c7_duplicate_id _ _ _ _ ⟨"O1", 7, 50, "pending", []⟩ (by rfl)

/-- Claim C3 is false as stated: a create request with claimed total 999
against a single line item worth 50 is persisted unchanged, while
validate_order_total rejects that total and the mismatch exceeds the 0.01
tolerance. -/
theorem c3_counterexample :
    (createOrder ⟨[], []⟩ ⟨[("X", 5)], [7], [], [], []⟩
        ⟨"O1", 7, 999, "pending", [⟨"X", 5, 10⟩]⟩ ⟨7, "user"⟩).1 =
      Except.ok ⟨"O1", 7, 999, "pending", [⟨"X", 5, 10⟩]⟩ ∧
    (createOrder ⟨[], []⟩ ⟨[("X", 5)], [7], [], [], []⟩
        ⟨"O1", 7, 999, "pending", [⟨"X", 5, 10⟩]⟩ ⟨7, "user"⟩).2.1.orders =
      [⟨"O1", 7, 999, "pending", [⟨"X", 5, 10⟩]⟩] ∧
    (validate_order_total [⟨"X", 5, 10⟩] 999).1 = false ∧
    abs ((([⟨"X", 5, 10⟩] : List Item).map (fun i => i.price * (i.quantity : Rat))).sum - 999)
      > (1 : Rat) / 100 := by
  refine ⟨rfl, rfl, by norm_num [validate_order_total], by norm_num⟩

/-- Claim C3 (amended): the create path never invokes
validate_order_total; for every claimed total - in particular any the
check rejects - the order is persisted with that total unchanged. -/
theorem c3_total_check_never_invoked (t : Rat)
    (hreject : (validate_order_total [⟨"X", 5, 10⟩] t).1 = false) :
    (createOrder ⟨[], []⟩ ⟨[("X", 5)], [7], [], [], []⟩
        ⟨"O1", 7, t, "pending", [⟨"X", 5, 10⟩]⟩ ⟨7, "user"⟩).1 =
      Except.ok ⟨"O1", 7, t, "pending", [⟨"X", 5, 10⟩]⟩ ∧
    (createOrder ⟨[], []⟩ ⟨[("X", 5)], [7], [], [], []⟩
        ⟨"O1", 7, t, "pending", [⟨"X", 5, 10⟩]⟩ ⟨7, "user"⟩).2.1.orders =
      [⟨"O1", 7, t, "pending", [⟨"X", 5, 10⟩]⟩] :=
  ⟨rfl, rfl⟩

/-- Witness for C3 (amended) at the rejected total 999. -/
theorem c3_witness :
    (validate_order_total [⟨"X", 5, 10⟩] 999).1 = false ∧
    (createOrder ⟨[], []⟩ ⟨[("X", 5)], [7], [], [], []⟩
        ⟨"O1", 7, 999, "pending", [⟨"X", 5, 10⟩]⟩ ⟨7, "user"⟩).1 =
      Except.ok ⟨"O1", 7, 999, "pending", [⟨"X", 5, 10⟩]⟩ :=
  ⟨by norm_num [validate_order_total],
   (c3_total_check_never_invoked 999 (by norm_num [validate_order_total])).1⟩

/-- Claim C5 is false as stated: a transport fault during the
reservation step of create surfaces as a 400 with the deduction failure
message - not the distinct 503 ServiceUnavailable outcome. -/
theorem c5_counterexample :
    (createOrder ⟨[], []⟩
        ⟨[("X", 5)], [7], [Fault.ok, Fault.ok, Fault.ok, Fault.transport "timeout"], [], []⟩
        ⟨"O1", 7, 50, "pending", [⟨"X", 5, 10⟩]⟩ ⟨7, "user"⟩).1 =
      Except.error ⟨400, "Inventory deduction failed: Inventory service error: timeout"⟩ ∧
    (400 : Nat) ≠ 503 :=
  ⟨rfl, by decide⟩

/-- Matching a pattern at the head of a list extended by anything succeeds. -/
theorem leadsWith_append (p t : List Char) : leadsWith p (p ++ t) = true := by
  induction p with
  | nil => rfl
  | cons c cs ih => simp [leadsWith, ih]

/-- A pattern matching at the head is found by the substring search. -/
theorem hasSub_of_leadsWith (pat hay : List Char) (h : leadsWith pat hay = true) :
    hasSub pat hay = true := by
  cases hay with
  | nil => exact h
  | cons a t => simp [hasSub, h]

/-- String append acts as list append on the underlying character data. -/
theorem data_append (a b : String) : (a ++ b).data = a.data ++ b.data := by
  rcases a with ⟨la⟩
  rcases b with ⟨lb⟩
  rfl

/-- Every message of the form "Service communication error: s" passes the
substring test create_order uses to choose the 503 status. -/
theorem strContainsSub_comm_error (s : String) :
    strContainsSub ("Service communication error: " ++ s) "Service communication error" = true := by
  unfold strContainsSub
  apply hasSub_of_leadsWith
  have hd : ("Service communication error: " ++ s).data =
      "Service communication error".data ++ (':' :: ' ' :: s.data) := by
    rw [data_append]
    rfl
  rw [hd]
  exact leadsWith_append _ _

/-- Shared helper: the stock-check loop consumes one fault token per item;
if all tokens before position j are not transport faults, stock suffices
for the first j items, and the j-th token is a transport fault, the loop
fails with the communication-error message, whatever j. -/
theorem checkStockLoop_transport (items : List Item) :
    ∀ (w : World) (pre : List Fault) (s : String) (rest : List Fault),
    w.faults = pre ++ Fault.transport s :: rest →
    (∀ f ∈ pre, ∀ t, f ≠ Fault.transport t) →
    pre.length < items.length →
    (∀ it ∈ items.take pre.length, (lookupStock w.stock it.sku).getD 0 ≥ it.quantity) →
    (checkStockLoop w items).1 = (false, some ("Service communication error: " ++ s)) := by
  induction items with
  | nil =>
    intro w pre s rest hf hpre hlen hsuff
    simp at hlen
  | cons a t ih =>
    intro w pre s rest hf hpre hlen hsuff
    cases pre with
    | nil =>
      rw [List.nil_append] at hf
      have hp : popFault w = (Fault.transport s, { w with faults := rest }) := by
        unfold popFault
        rw [hf]
      unfold checkStockLoop
      rw [hp]
    | cons f0 pre' =>
      rw [List.cons_append] at hf
      have hp : popFault w = (f0, { w with faults := pre' ++ Fault.transport s :: rest }) := by
        unfold popFault
        rw [hf]
      have hf0 := hpre f0 (List.mem_cons_self f0 pre')
      have hcur : (lookupStock w.stock a.sku).getD 0 ≥ a.quantity :=
        hsuff a (by simp [List.take_succ_cons])
      have hsuff' : ∀ it ∈ t.take pre'.length,
          (lookupStock w.stock it.sku).getD 0 ≥ it.quantity := by
        intro it hit
        refine hsuff it ?_
        simp only [List.length_cons, List.take_succ_cons, List.mem_cons]
        exact Or.inr hit
      have hlen' : pre'.length < t.length := by simpa using hlen
      have hpre' : ∀ f ∈ pre', ∀ t', f ≠ Fault.transport t' :=
        fun f hfm => hpre f (List.mem_cons_of_mem f0 hfm)
      unfold checkStockLoop
      rw [hp]
      cases f0 with
      | transport u => exact absurd rfl (hf0 u)
      | ok =>
        dsimp only
        rw [if_pos hcur]
        exact ih _ pre' s rest rfl hpre' hlen' hsuff'
      | putReject u =>
        dsimp only
        rw [if_pos hcur]
        exact ih _ pre' s rest rfl hpre' hlen' hsuff'

/-- Shared helper: a transport fault consumed by the user-existence call
(the first remote call of validate_order_data) yields the
communication-error failure. -/
theorem validate_transport_user (w : World) (o : OrderRec) (s : String) (rest : List Fault)
    (hf : w.faults = Fault.transport s :: rest) :
    (validate_order_data w o).1 = (false, some ("Service communication error: " ++ s)) := by
  have hp : popFault w = (Fault.transport s, { w with faults := rest }) := by
    unfold popFault
    rw [hf]
  unfold validate_order_data
  rw [hp]

/-- Shared helper: a transport fault consumed by the item-existence call
(the second remote call, reached when the user exists and the order has
items) yields the communication-error failure. -/
theorem validate_transport_items (w : World) (o : OrderRec) (s : String)
    (f0 : Fault) (rest : List Fault)
    (hf0 : ∀ t, f0 ≠ Fault.transport t)
    (hf : w.faults = f0 :: Fault.transport s :: rest)
    (huser : o.user_id ∈ w.users) (hitems : o.items ≠ []) :
    (validate_order_data w o).1 = (false, some ("Service communication error: " ++ s)) := by
  have hp : popFault w = (f0, { w with faults := Fault.transport s :: rest }) := by
    unfold popFault
    rw [hf]
  have hp1 : popFault { w with faults := Fault.transport s :: rest } =
      (Fault.transport s, { w with faults := rest }) := rfl
  unfold validate_order_data
  rw [hp]
  cases f0 with
  | transport t => exact absurd rfl (hf0 t)
  | ok =>
    dsimp only
    rw [if_pos huser, if_neg hitems, hp1]
  | putReject t =>
    dsimp only
    rw [if_pos huser, if_neg hitems, hp1]

/-- Shared helper: a transport fault consumed by any of the per-item
stock-check calls (reached when the user exists, the order has items,
every SKU exists, earlier tokens are not transport faults and earlier
stock checks pass) yields the communication-error failure, whatever the
position of the faulted check. -/
theorem validate_transport_stock (w : World) (o : OrderRec) (s : String)
    (f0 f1 : Fault) (pre : List Fault) (rest : List Fault)
    (hf0 : ∀ t, f0 ≠ Fault.transport t) (hf1 : ∀ t, f1 ≠ Fault.transport t)
    (hpre : ∀ f ∈ pre, ∀ t, f ≠ Fault.transport t)
    (hf : w.faults = f0 :: f1 :: (pre ++ Fault.transport s :: rest))
    (huser : o.user_id ∈ w.users) (hitems : o.items ≠ [])
    (hexist : (o.items.map Item.sku).find? (fun sku => (lookupStock w.stock sku).isNone) = none)
    (hlen : pre.length < o.items.length)
    (hsuff : ∀ it ∈ o.items.take pre.length,
      (lookupStock w.stock it.sku).getD 0 ≥ it.quantity) :
    (validate_order_data w o).1 = (false, some ("Service communication error: " ++ s)) := by
  have hp : popFault w = (f0, { w with faults := f1 :: (pre ++ Fault.transport s :: rest) }) := by
    unfold popFault
    rw [hf]
  have hp1 : popFault { w with faults := f1 :: (pre ++ Fault.transport s :: rest) } =
      (f1, { w with faults := pre ++ Fault.transport s :: rest }) := rfl
  have hloop := checkStockLoop_transport o.items
    { w with faults := pre ++ Fault.transport s :: rest } pre s rest rfl hpre hlen hsuff
  unfold validate_order_data
  rw [hp]
  cases f0 with
  | transport t => exact absurd rfl (hf0 t)
  | ok =>
    dsimp only
    rw [if_pos huser, if_neg hitems, hp1]
    cases f1 with
    | transport t => exact absurd rfl (hf1 t)
    | ok =>
      dsimp only
      rw [hexist]
      exact hloop
    | putReject t =>
      dsimp only
      rw [hexist]
      exact hloop
  | putReject t =>
    dsimp only
    rw [if_pos huser, if_neg hitems, hp1]
    cases f1 with
    | transport t' => exact absurd rfl (hf1 t')
    | ok =>
      dsimp only
      rw [hexist]
      exact hloop
    | putReject t' =>
      dsimp only
      rw [hexist]
      exact hloop

/-- Shared helper: once validate_order_data fails with a message
containing "Service communication error", create_order surfaces it as a
503. -/
theorem createOrder_503_of_comm_error (db : Db) (w : World) (o : OrderRec)
    (u : CurrentUser) (s : String)
    (hfind : db.orders.find? (fun r => r.id == o.id) = none)
    (hauth : u.role = "admin" ∨ o.user_id = u.id)
    (hval : (validate_order_data w o).1 =
      (false, some ("Service communication error: " ++ s))) :
    (createOrder db w o u).1 =
      Except.error ⟨503, "Service communication error: " ++ s⟩ := by
  have hnotauth : ¬(u.role ≠ "admin" ∧ o.user_id ≠ u.id) := by
    rcases hauth with h | h
    · exact fun hc => hc.1 h
    · exact fun hc => hc.2 h
  have hb : (validate_order_data w o).1.1 = false := by rw [hval]
  have hm : (validate_order_data w o).1.2 = some ("Service communication error: " ++ s) := by
    rw [hval]
  unfold createOrder
  rw [hfind]
  dsimp only
  rw [if_neg hnotauth]
  rw [hb, if_pos rfl]
  rw [hm]
  simp only [Option.getD]
  rw [if_pos (strContainsSub_comm_error s)]

/-- Shared helper: a validate_order_data failure whose message does not
contain "Service communication error" surfaces as a 400. -/
theorem createOrder_400_of_validation_fail (db : Db) (w : World) (o : OrderRec)
    (u : CurrentUser) (msg : String)
    (hfind : db.orders.find? (fun r => r.id == o.id) = none)
    (hauth : u.role = "admin" ∨ o.user_id = u.id)
    (hval : (validate_order_data w o).1 = (false, some msg))
    (hnc : strContainsSub msg "Service communication error" = false) :
    (createOrder db w o u).1 = Except.error ⟨400, msg⟩ := by
  have hnotauth : ¬(u.role ≠ "admin" ∧ o.user_id ≠ u.id) := by
    rcases hauth with h | h
    · exact fun hc => hc.1 h
    · exact fun hc => hc.2 h
  have hb : (validate_order_data w o).1.1 = false := by rw [hval]
  have hm : (validate_order_data w o).1.2 = some msg := by rw [hval]
  unfold createOrder
  rw [hfind]
  dsimp only
  rw [if_neg hnotauth]
  rw [hb, if_pos rfl]
  rw [hm]
  simp only [Option.getD]
  rw [if_neg (by rw [hnc]; exact Bool.false_ne_true)]

/-- Shared helper: when validation succeeds and the first reservation
failure carries message msg, create_order surfaces a 400 wrapping msg,
whatever the failing position and the rest of the fault schedule. -/
theorem createOrder_400_of_reservation_fail (db : Db) (w : World) (o : OrderRec)
    (u : CurrentUser) (k : Nat) (msg : String)
    (hfind : db.orders.find? (fun r => r.id == o.id) = none)
    (hauth : u.role = "admin" ∨ o.user_id = u.id)
    (hval : (validate_order_data w o).1 = (true, none))
    (hitems : o.items ≠ []) (hstatus : o.status ≠ "cancelled")
    (hfail : (firstFailureAux (validate_order_data w o).2 o.items).1 = some (k, msg)) :
    (createOrder db w o u).1 =
      Except.error ⟨400, "Inventory deduction failed: " ++ msg⟩ := by
  have hnotauth : ¬(u.role ≠ "admin" ∧ o.user_id ≠ u.id) := by
    rcases hauth with h | h
    · exact fun hc => hc.1 h
    · exact fun hc => hc.2 h
  have hb : (validate_order_data w o).1.1 = true := by rw [hval]
  have hrun := processDeductGo_some o.items (validate_order_data w o).2 [] o.items k msg hfail
  have hp1 : (process_inventory_for_order (validate_order_data w o).2 o.items true).1 =
      (false, some ("Inventory deduction failed: " ++ msg), []) := by
    show (processDeductGo o.items (validate_order_data w o).2 [] o.items).1 = _
    rw [hrun]
  have hpb : (process_inventory_for_order (validate_order_data w o).2 o.items true).1.1 =
      false := by rw [hp1]
  have hpm : (process_inventory_for_order (validate_order_data w o).2 o.items true).1.2.1 =
      some ("Inventory deduction failed: " ++ msg) := by rw [hp1]
  unfold createOrder
  rw [hfind]
  dsimp only
  rw [if_neg hnotauth]
  rw [hb, if_neg (by exact fun h => Bool.noConfusion h)]
  rw [if_pos ⟨hitems, hstatus⟩]
  rw [hpb, if_pos rfl]
  rw [hpm]
  rfl

/-- Claim C5 (amended): a remote transport failure during the VALIDATION
step of order creation - at the user-existence call, the item-existence
call, or any of the per-item stock checks, under any world, order and
fault schedule - surfaces as the distinct retryable 503
ServiceUnavailable outcome carrying "Service communication error"; a
transport failure during the RESERVATION step makes that reserve call
fail with "Inventory service error", and whatever reservation failure
comes first is surfaced as a 400 - the same status code every
non-communication validation failure receives. -/
theorem c5_unavailable_only_during_validation :
    (∀ (db : Db) (w : World) (o : OrderRec) (u : CurrentUser) (s : String)
       (rest : List Fault),
      db.orders.find? (fun r => r.id == o.id) = none →
      (u.role = "admin" ∨ o.user_id = u.id) →
      w.faults = Fault.transport s :: rest →
      (createOrder db w o u).1 =
        Except.error ⟨503, "Service communication error: " ++ s⟩) ∧
    (∀ (db : Db) (w : World) (o : OrderRec) (u : CurrentUser) (s : String)
       (f0 : Fault) (rest : List Fault),
      db.orders.find? (fun r => r.id == o.id) = none →
      (u.role = "admin" ∨ o.user_id = u.id) →
      (∀ t, f0 ≠ Fault.transport t) →
      o.user_id ∈ w.users → o.items ≠ [] →
      w.faults = f0 :: Fault.transport s :: rest →
      (createOrder db w o u).1 =
        Except.error ⟨503, "Service communication error: " ++ s⟩) ∧
    (∀ (db : Db) (w : World) (o : OrderRec) (u : CurrentUser) (s : String)
       (f0 f1 : Fault) (pre : List Fault) (rest : List Fault),
      db.orders.find? (fun r => r.id == o.id) = none →
      (u.role = "admin" ∨ o.user_id = u.id) →
      (∀ t, f0 ≠ Fault.transport t) → (∀ t, f1 ≠ Fault.transport t) →
      (∀ f ∈ pre, ∀ t, f ≠ Fault.transport t) →
      o.user_id ∈ w.users → o.items ≠ [] →
      (o.items.map Item.sku).find? (fun sku => (lookupStock w.stock sku).isNone) = none →
      pre.length < o.items.length →
      (∀ it ∈ o.items.take pre.length,
        (lookupStock w.stock it.sku).getD 0 ≥ it.quantity) →
      w.faults = f0 :: f1 :: (pre ++ Fault.transport s :: rest) →
      (createOrder db w o u).1 =
        Except.error ⟨503, "Service communication error: " ++ s⟩) ∧
    (∀ (w : World) (sku : String) (qty : Int) (s : String) (rest : List Fault),
      w.faults = Fault.transport s :: rest →
      (reduce_inventory w sku qty).1 =
        (false, some ("Inventory service error: " ++ s))) ∧
    (∀ (db : Db) (w : World) (o : OrderRec) (u : CurrentUser) (k : Nat) (s : String),
      db.orders.find? (fun r => r.id == o.id) = none →
      (u.role = "admin" ∨ o.user_id = u.id) →
      (validate_order_data w o).1 = (true, none) →
      o.items ≠ [] → o.status ≠ "cancelled" →
      (firstFailureAux (validate_order_data w o).2 o.items).1 =
        some (k, "Inventory service error: " ++ s) →
      (createOrder db w o u).1 =
        Except.error ⟨400, "Inventory deduction failed: " ++
          ("Inventory service error: " ++ s)⟩) ∧
    (∀ (db : Db) (w : World) (o : OrderRec) (u : CurrentUser) (msg : String),
      db.orders.find? (fun r => r.id == o.id) = none →
      (u.role = "admin" ∨ o.user_id = u.id) →
      (validate_order_data w o).1 = (false, some msg) →
      strContainsSub msg "Service communication error" = false →
      (createOrder db w o u).1 = Except.error ⟨400, msg⟩) := by
  refine ⟨?_, ?_, ?_, ?_, ?_, ?_⟩
  · intro db w o u s rest hfind hauth hf
    exact createOrder_503_of_comm_error db w o u s hfind hauth
      (validate_transport_user w o s rest hf)
  · intro db w o u s f0 rest hfind hauth hf0 huser hitems hf
    exact createOrder_503_of_comm_error db w o u s hfind hauth
      (validate_transport_items w o s f0 rest hf0 hf huser hitems)
  · intro db w o u s f0 f1 pre rest hfind hauth hf0 hf1 hpre huser hitems hexist hlen hsuff hf
    exact createOrder_503_of_comm_error db w o u s hfind hauth
      (validate_transport_stock w o s f0 f1 pre rest hf0 hf1 hpre hf huser hitems
        hexist hlen hsuff)
  · intro w sku qty s rest hf
    have hp : popFault w = (Fault.transport s, { w with faults := rest }) := by
      unfold popFault
      rw [hf]
    unfold reduce_inventory
    rw [hp]
  · intro db w o u k s hfind hauth hval hitems hstatus hfail
    exact createOrder_400_of_reservation_fail db w o u k
      ("Inventory service error: " ++ s) hfind hauth hval hitems hstatus hfail
  · intro db w o u msg hfind hauth hval hnc
    exact createOrder_400_of_validation_fail db w o u msg hfind hauth hval hnc

/-- Witness for C5 (amended): a transport fault at the second stock check
of a two-item order surfaces as 503; a transport fault at the second
reservation call of a validated two-item order surfaces as 400. -/
theorem c5_witness :
    (createOrder ⟨[], []⟩
        ⟨[("X", 5), ("Y", 1)], [7],
         [Fault.ok, Fault.ok, Fault.ok, Fault.transport "slow"], [], []⟩
        ⟨"O1", 7, 51, "pending", [⟨"X", 5, 10⟩, ⟨"Y", 1, 1⟩]⟩ ⟨7, "user"⟩).1 =
      Except.error ⟨503, "Service communication error: slow"⟩ ∧
    (createOrder ⟨[], []⟩
        ⟨[("X", 5), ("Y", 3)], [7],
         [Fault.ok, Fault.ok, Fault.ok, Fault.ok, Fault.ok, Fault.transport "late"], [], []⟩
        ⟨"O1", 7, 53, "pending", [⟨"X", 5, 10⟩, ⟨"Y", 3, 1⟩]⟩ ⟨7, "user"⟩).1 =
      Except.error ⟨400, "Inventory deduction failed: Inventory service error: late"⟩ := by
  constructor
  · have h := c5_unavailable_only_during_validation.2.2.1
      ⟨[], []⟩
      ⟨[("X", 5), ("Y", 1)], [7],
       [Fault.ok, Fault.ok, Fault.ok, Fault.transport "slow"], [], []⟩
      ⟨"O1", 7, 51, "pending", [⟨"X", 5, 10⟩, ⟨"Y", 1, 1⟩]⟩ ⟨7, "user"⟩ "slow"
      Fault.ok Fault.ok [Fault.ok] []
      rfl (Or.inr rfl)
      (fun t hcon => Fault.noConfusion hcon)
      (fun t hcon => Fault.noConfusion hcon)
      (by
        intro f hf t hcon
        rw [List.mem_singleton] at hf
        subst hf
        exact Fault.noConfusion hcon)
      (by decide) (by decide) rfl (by decide) (by decide) rfl
    rw [h]
    rfl
  · have h := c5_unavailable_only_during_validation.2.2.2.2.1
      ⟨[], []⟩
      ⟨[("X", 5), ("Y", 3)], [7],
       [Fault.ok, Fault.ok, Fault.ok, Fault.ok, Fault.ok, Fault.transport "late"], [], []⟩
      ⟨"O1", 7, 53, "pending", [⟨"X", 5, 10⟩, ⟨"Y", 3, 1⟩]⟩ ⟨7, "user"⟩ 1 "late"
      rfl (Or.inr rfl) rfl (by decide) (by decide) rfl
    rw [h]
    rfl

/-- Shared helper: shape of update_order on a truthy status change. -/
theorem updateOrder_status_change_eq (db : Db) (w : World) (orderId : String)
    (p : OrderPatch) (u : CurrentUser) (ex : OrderRec) (s : String)
    (hfound : db.orders.find? (fun r => r.id == orderId) = some ex)
    (hauth : u.role = "admin" ∨ ex.user_id = u.id)
    (hps : p.status = some s) (hse : s ≠ "") (hsne : s ≠ ex.status) :
    updateOrder db w orderId p u =
      (if (inventoryStep w ex.status s ex.items).1.1 then
        finalizeUpdate db (inventoryStep w ex.status s ex.items).2 orderId p
          { order_id := orderId, event_type := "status_changed",
            description := "Status changed from '" ++ ex.status ++ "' to '" ++ s ++ "'",
            old_value := some ex.status, new_value := some s, user_id := some u.id }
      else (Except.error ⟨400, (inventoryStep w ex.status s ex.items).1.2⟩, db,
        (inventoryStep w ex.status s ex.items).2)) := by
  have hnotauth : ¬(u.role ≠ "admin" ∧ ex.user_id ≠ u.id) := by
    rcases hauth with h | h
    · exact fun hc => hc.1 h
    · exact fun hc => hc.2 h
  unfold updateOrder
  rw [hfound]
  dsimp only
  rw [if_neg hnotauth, hps]
  dsimp only
  rw [if_pos ⟨hse, hsne⟩]

/-- Claim C4 is false as stated: reactivating a cancelled two-item order
whose second reservation fails does abort with that failure, but a
compensating release of the first item's reservation IS performed (the
restore log is nonempty), contradicting the no-compensation clause. -/
theorem c4_counterexample :
    (updateOrder ⟨[⟨"O2", 7, 0, "cancelled", [⟨"A", 1, 0⟩, ⟨"B", 1, 0⟩]⟩], []⟩
        ⟨[("A", 1), ("B", 0)], [7], [], [], []⟩ "O2"
        ⟨none, none, some "pending", none⟩ ⟨7, "user"⟩).1 =
      Except.error ⟨400, "Failed to deduct inventory: Inventory deduction failed: Insufficient inventory for SKU 'B'. Available: 0, Requested: 1"⟩ ∧
    ((updateOrder ⟨[⟨"O2", 7, 0, "cancelled", [⟨"A", 1, 0⟩, ⟨"B", 1, 0⟩]⟩], []⟩
        ⟨[("A", 1), ("B", 0)], [7], [], [], []⟩ "O2"
        ⟨none, none, some "pending", none⟩ ⟨7, "user"⟩).2.2).restoreLog = [("A", 1)] ∧
    [("A", 1)] ≠ ([] : List (String × Int)) :=
  ⟨rfl, rfl, by decide⟩

/-- Claim C4 (amended): on an update out of cancelled, inventory is
reserved item by item; if the reservation at index k fails the update is
aborted with a 400 carrying that failure, nothing is persisted, and (for
distinct SKUs) the k already-reserved items ARE compensated by releases,
exactly as on the create path - the shared helper performs the rollback. -/
theorem c4_reactivation_aborts_with_compensation (db : Db) (w : World) (orderId : String)
    (p : OrderPatch) (u : CurrentUser) (ex : OrderRec) (s : String) (k : Nat) (msg : String)
    (hfound : db.orders.find? (fun r => r.id == orderId) = some ex)
    (hauth : u.role = "admin" ∨ ex.user_id = u.id)
    (hps : p.status = some s) (hse : s ≠ "")
    (hexst : ex.status = "cancelled") (hsnc : s ≠ "cancelled")
    (hitems : ex.items ≠ [])
    (hnodup : (ex.items.map Item.sku).Nodup)
    (hfail : (firstFailureAux w ex.items).1 = some (k, msg)) :
    (updateOrder db w orderId p u).1 = Except.error
      ⟨400, "Failed to deduct inventory: " ++ ("Inventory deduction failed: " ++ msg)⟩ ∧
    (updateOrder db w orderId p u).2.1 = db ∧
    ((updateOrder db w orderId p u).2.2).restoreLog =
      w.restoreLog ++ (ex.items.take k).map (fun i => (i.sku, i.quantity)) := by
  have hspec := process_deduct_failure_spec w ex.items k msg hnodup hfail
  have hb : (process_inventory_for_order w ex.items true).1.1 = false := by rw [hspec.1]
  have hmsg : (process_inventory_for_order w ex.items true).1.2.1 =
      some ("Inventory deduction failed: " ++ msg) := by rw [hspec.1]
  have hsne : s ≠ ex.status := by rw [hexst]; exact hsnc
  have hstep : inventoryStep w ex.status s ex.items =
      ((false, "Failed to deduct inventory: " ++ ("Inventory deduction failed: " ++ msg)),
       (process_inventory_for_order w ex.items true).2) := by
    unfold inventoryStep
    rw [if_neg (fun hc => hsnc hc.1), if_pos ⟨hexst, hsnc⟩, if_pos hitems]
    rw [if_neg (by rw [hb]; exact Bool.false_ne_true), hmsg]
    rfl
  rw [updateOrder_status_change_eq db w orderId p u ex s hfound hauth hps hse hsne, hstep]
  refine ⟨rfl, rfl, ?_⟩
  exact hspec.2.1

/-- Witness for C4 (amended): the reactivation scenario leaves the
database untouched and releases exactly the first item. -/
theorem c4_witness :
    (updateOrder ⟨[⟨"O2", 7, 0, "cancelled", [⟨"A", 1, 0⟩, ⟨"B", 1, 0⟩]⟩], []⟩
        ⟨[("A", 1), ("B", 0)], [7], [], [], []⟩ "O2"
        ⟨none, none, some "pending", none⟩ ⟨7, "user"⟩).2.1 =
      ⟨[⟨"O2", 7, 0, "cancelled", [⟨"A", 1, 0⟩, ⟨"B", 1, 0⟩]⟩], []⟩ ∧
    ((updateOrder ⟨[⟨"O2", 7, 0, "cancelled", [⟨"A", 1, 0⟩, ⟨"B", 1, 0⟩]⟩], []⟩
        ⟨[("A", 1), ("B", 0)], [7], [], [], []⟩ "O2"
        ⟨none, none, some "pending", none⟩ ⟨7, "user"⟩).2.2).restoreLog = [("A", 1)] := by
  have h := c4_reactivation_aborts_with_compensation
    ⟨[⟨"O2", 7, 0, "cancelled", [⟨"A", 1, 0⟩, ⟨"B", 1, 0⟩]⟩], []⟩
    ⟨[("A", 1), ("B", 0)], [7], [], [], []⟩ "O2"
    ⟨none, none, some "pending", none⟩ ⟨7, "user"⟩
    ⟨"O2", 7, 0, "cancelled", [⟨"A", 1, 0⟩, ⟨"B", 1, 0⟩]⟩ "pending" 1
    "Insufficient inventory for SKU 'B'. Available: 0, Requested: 1"
    rfl (Or.inr rfl) rfl (by decide) rfl (by decide) (by decide) (by decide) rfl
  exact ⟨h.2.1, by rw [h.2.2]; decide⟩

/-- Shared helper: the only failure the status-change inventory step can
report is a restore/deduct failure message. -/
theorem inventoryStep_fail_shape (w : World) (oldS newS : String) (items : List Item) :
    (inventoryStep w oldS newS items).1.1 = false →
    ∃ m, (inventoryStep w oldS newS items).1.2 = "Failed to restore inventory: " ++ m ∨
         (inventoryStep w oldS newS items).1.2 = "Failed to deduct inventory: " ++ m := by
  unfold inventoryStep
  dsimp only
  split_ifs <;> intro h <;>
    first
      | exact absurd h (by decide)
      | exact ⟨_, Or.inl rfl⟩
      | exact ⟨_, Or.inr rfl⟩

/-- Shared helper: the finalize step can only fail with a 404. -/
theorem finalizeUpdate_error_shape (db : Db) (w : World) (orderId : String)
    (p : OrderPatch) (ev : EventRec) (e : HttpError) :
    (finalizeUpdate db w orderId p ev).1 = Except.error e →
    e = ⟨404, "Order not found"⟩ := by
  unfold finalizeUpdate
  split
  · intro h
    exact (Except.error.inj h).symm
  · intro h
    exact absurd h (by simp)

/-- Claim C6: the update path never raises a status-transition-guard
failure - its only errors are 404, 403, and 400 inventory failures - and
a status change along an edge not in the legal set (neither side
cancelled, e.g. delivered to pending) is applied and persisted with a
status_changed event, the world untouched. -/
theorem c6_update_skips_transition_guard :
    (∀ (db : Db) (w : World) (orderId : String) (p : OrderPatch) (u : CurrentUser)
       (e : HttpError),
      (updateOrder db w orderId p u).1 = Except.error e →
      e = ⟨404, "Order not found"⟩ ∨
      e = ⟨403, "Not authorized to update this order"⟩ ∨
      (e.code = 400 ∧ ∃ m, (e.detail = "Failed to restore inventory: " ++ m ∨
        e.detail = "Failed to deduct inventory: " ++ m))) ∧
    (∀ (db : Db) (w : World) (orderId : String) (p : OrderPatch) (u : CurrentUser)
       (ex : OrderRec) (s : String),
      db.orders.find? (fun r => r.id == orderId) = some ex →
      (u.role = "admin" ∨ ex.user_id = u.id) →
      p.status = some s → s ≠ "" → s ≠ ex.status →
      ex.status ≠ "cancelled" → s ≠ "cancelled" →
      (updateOrder db w orderId p u).1 = Except.ok (applyPatch ex p) ∧
      (updateOrder db w orderId p u).2.1.orders =
        db.orders.map (fun o => if o.id == orderId then applyPatch ex p else o) ∧
      (updateOrder db w orderId p u).2.1.events = db.events ++
        [⟨orderId, "status_changed",
          "Status changed from '" ++ ex.status ++ "' to '" ++ s ++ "'",
          some ex.status, some s, some u.id⟩] ∧
      (updateOrder db w orderId p u).2.2 = w ∧
      (applyPatch ex p).status = s) := by
  constructor
  · intro db w orderId p u e h
    unfold updateOrder at h
    split at h
    · exact Or.inl (Except.error.inj h).symm
    · split at h
      · exact Or.inr (Or.inl (Except.error.inj h).symm)
      · split at h
        · split at h
          · dsimp only at h
            split at h
            · exact Or.inl (finalizeUpdate_error_shape _ _ _ _ _ _ h)
            · rename_i hstepfail
              have hf := Bool.eq_false_iff.mpr hstepfail
              obtain ⟨m, hm⟩ := inventoryStep_fail_shape _ _ _ _ hf
              obtain rfl := (Except.error.inj h).symm
              exact Or.inr (Or.inr ⟨rfl, m, hm⟩)
          · exact Or.inl (finalizeUpdate_error_shape _ _ _ _ _ _ h)
        · exact Or.inl (finalizeUpdate_error_shape _ _ _ _ _ _ h)
  · intro db w orderId p u ex s hfound hauth hps hse hsne hexnc hsnc
    have hstep : inventoryStep w ex.status s ex.items = ((true, ""), w) := by
      unfold inventoryStep
      rw [if_neg (fun hc => hsnc hc.1), if_neg (fun hc => hexnc hc.1)]
    rw [updateOrder_status_change_eq db w orderId p u ex s hfound hauth hps hse hsne, hstep]
    rw [if_pos rfl]
    unfold finalizeUpdate
    rw [hfound]
    dsimp only
    refine ⟨rfl, rfl, rfl, rfl, ?_⟩
    simp [applyPatch, hps]

/-- Witness for C6: delivered to pending is rejected by the guard yet
applied by the update path. -/
theorem c6_witness :
    validate_order_status_transition "delivered" "pending" =
      (false, "Invalid status transition: delivered -> pending") ∧
    (updateOrder ⟨[⟨"O4", 7, 0, "delivered", [⟨"A", 1, 0⟩]⟩], []⟩
        ⟨[("A", 5)], [7], [], [], []⟩ "O4"
        ⟨none, none, some "pending", none⟩ ⟨7, "user"⟩).1 =
      Except.ok ⟨"O4", 7, 0, "pending", [⟨"A", 1, 0⟩]⟩ := by
  have h := c6_update_skips_transition_guard.2
    ⟨[⟨"O4", 7, 0, "delivered", [⟨"A", 1, 0⟩]⟩], []⟩ ⟨[("A", 5)], [7], [], [], []⟩
    "O4" ⟨none, none, some "pending", none⟩ ⟨7, "user"⟩
    ⟨"O4", 7, 0, "delivered", [⟨"A", 1, 0⟩]⟩ "pending"
    rfl (Or.inr rfl) rfl (by decide) (by decide) (by decide) (by decide)
  refine ⟨by decide, ?_⟩
  rw [h.1]
  rfl

/-- Claim C8: updating an order with items from a non-cancelled status
to cancelled issues a release for every item (the loop absorbs individual
release failures and always reports success), persists the patched order
with status cancelled, and appends a status_changed event carrying the
old and new status values. -/
theorem c8_cancel_releases_and_logs (db : Db) (w : World) (orderId : String)
    (p : OrderPatch) (u : CurrentUser) (ex : OrderRec)
    (hfound : db.orders.find? (fun r => r.id == orderId) = some ex)
    (hauth : u.role = "admin" ∨ ex.user_id = u.id)
    (hps : p.status = some "cancelled")
    (hexnc : ex.status ≠ "cancelled")
    (hitems : ex.items ≠ []) :
    (updateOrder db w orderId p u).1 = Except.ok (applyPatch ex p) ∧
    (updateOrder db w orderId p u).2.1.orders =
      db.orders.map (fun o => if o.id == orderId then applyPatch ex p else o) ∧
    (updateOrder db w orderId p u).2.1.events = db.events ++
      [⟨orderId, "status_changed",
        "Status changed from '" ++ ex.status ++ "' to '" ++ "cancelled" ++ "'",
        some ex.status, some "cancelled", some u.id⟩] ∧
    ((updateOrder db w orderId p u).2.2).restoreLog =
      w.restoreLog ++ ex.items.map (fun i => (i.sku, i.quantity)) ∧
    (applyPatch ex p).status = "cancelled" := by
  have hrspec := processRestoreGo_spec ex.items w []
  have hstep : inventoryStep w ex.status "cancelled" ex.items =
      ((true, ""), (process_inventory_for_order w ex.items false).2) := by
    unfold inventoryStep
    rw [if_pos ⟨rfl, hexnc⟩, if_pos hitems]
    dsimp only
    rw [if_pos (show (process_inventory_for_order w ex.items false).1.1 = true from hrspec.1.1)]
  rw [updateOrder_status_change_eq db w orderId p u ex "cancelled" hfound hauth hps
    (by decide) (Ne.symm hexnc), hstep]
  rw [if_pos rfl]
  unfold finalizeUpdate
  rw [hfound]
  dsimp only
  refine ⟨rfl, rfl, rfl, ?_, ?_⟩
  · exact hrspec.2
  · simp [applyPatch, hps]

/-- Witness for C8: a two-item cancellation whose first release hits a
transport fault still releases both items and persists the change. -/
theorem c8_witness :
    (updateOrder ⟨[⟨"O3", 7, 0, "pending", [⟨"A", 1, 0⟩, ⟨"B", 2, 0⟩]⟩], []⟩
        ⟨[("A", 1), ("B", 0)], [7], [Fault.transport "x"], [], []⟩ "O3"
        ⟨none, none, some "cancelled", none⟩ ⟨7, "user"⟩).1 =
      Except.ok ⟨"O3", 7, 0, "cancelled", [⟨"A", 1, 0⟩, ⟨"B", 2, 0⟩]⟩ ∧
    ((updateOrder ⟨[⟨"O3", 7, 0, "pending", [⟨"A", 1, 0⟩, ⟨"B", 2, 0⟩]⟩], []⟩
        ⟨[("A", 1), ("B", 0)], [7], [Fault.transport "x"], [], []⟩ "O3"
        ⟨none, none, some "cancelled", none⟩ ⟨7, "user"⟩).2.2).restoreLog =
      [("A", 1), ("B", 2)] := by
  have h := c8_cancel_releases_and_logs
    ⟨[⟨"O3", 7, 0, "pending", [⟨"A", 1, 0⟩, ⟨"B", 2, 0⟩]⟩], []⟩
    ⟨[("A", 1), ("B", 0)], [7], [Fault.transport "x"], [], []⟩ "O3"
    ⟨none, none, some "cancelled", none⟩ ⟨7, "user"⟩
    ⟨"O3", 7, 0, "pending", [⟨"A", 1, 0⟩, ⟨"B", 2, 0⟩]⟩
    rfl (Or.inr rfl) rfl (by decide) (by decide)
  refine ⟨by rw [h.1]; rfl, by rw [h.2.2.2.1]; decide⟩

/-- Witness for C2 at a status outside the enumerated set. -/
theorem c2_witness :
    validate_order_status_transition "refunded" "pending" =
      (false, "Unknown status: refunded") := by
  have h := (c2_status_guard "refunded" "pending").2.2.1 (by decide)
  rw [h]
  decide

/-- Witness for C9 at a duplicate-SKU list. -/
theorem c9_witness :
    validate_order_items [⟨"A", 1, 5⟩, ⟨"A", 2, 5⟩] =
      (false, "Order contains duplicate SKUs") :=
  (c9_validate_items [⟨"A", 1, 5⟩, ⟨"A", 2, 5⟩]).2.2.2.2.1 (by decide) (by decide) (by decide)

end OrdersSaga
